import Mathlib

/-!
Verification development for the finch_ai analytics pipeline
(security gate, result validator, SQL agent, intent router, AI gateway).

Strings are modelled as `List Char`; Python's ASCII-cased `upper`/`lower`,
whitespace handling and regular-expression fragments used by the code are
embedded as executable functions on character lists.  Rational numbers
stand in for Python floats; `round(x, 2)` is modelled as exact rounding of
`x * 100` to an integer.  Database sessions and generation backends are
modelled as oracles (`List Char -> Except String _`, call-indexed for the
gateway); everything else is translated directly from the source.
-/

namespace FinchAI

abbrev Chars := List Char

/-- Convert a Lean string literal to the character-list representation. -/
def lc (s : String) : Chars := s.toList

/-- Model of Python `str.lower()` on the ASCII fragment. -/
def lowerL (s : Chars) : Chars := s.map Char.toLower

/-- Model of Python `str.upper()` on the ASCII fragment. -/
def upperL (s : Chars) : Chars := s.map Char.toUpper

/-- Whitespace test used for Python `str.strip`/`\s` (ASCII fragment). -/
def isWs (c : Char) : Bool := c.isWhitespace

/-- Model of Python `str.strip()`. -/
def stripL (s : Chars) : Chars :=
  ((s.dropWhile isWs).reverse.dropWhile isWs).reverse

/-- Model of Python `str.rstrip(';')`: drop all trailing semicolons. -/
def rstripSemi (s : Chars) : Chars :=
  (s.reverse.dropWhile (fun c => c = ';')).reverse

/-- Substring containment, Python's `pat in s`. -/
def containsSub (pat : Chars) : Chars → Bool
  | [] => pat.isEmpty
  | c :: rest =>
      decide ((c :: rest).take pat.length = pat) || containsSub pat rest

/-- Word character for the regex `\b` boundary (`\w`, ASCII fragment). -/
def isWordChar (c : Char) : Bool := c.isAlphanum || c = '_'

/-- A `\b`-boundary holds before the scan position given the previous char. -/
def boundaryOk (prev : Option Char) : Bool :=
  match prev with
  | none => true
  | some c => !isWordChar c

/-- `kw` (a word made of word characters) matches at the head of `s` with a
trailing `\b` boundary. -/
def wordAt (kw s : Chars) : Bool :=
  (s.take kw.length = kw) &&
    (match s.drop kw.length with
     | [] => true
     | d :: _ => !isWordChar d)

/-- Scan for a whole-word occurrence (`re.search` of `\bKW\b`), tracking the
previous character for the leading boundary. -/
def cwwAux (kw : Chars) (prev : Option Char) : Chars → Bool
  | [] => false
  | c :: rest =>
      (boundaryOk prev && wordAt kw (c :: rest)) || cwwAux kw (some c) rest

/-- `re.search(r'\bKW\b', s)` succeeds, for a keyword of word characters. -/
def containsWholeWord (kw s : Chars) : Bool := cwwAux kw none s

/-- `re.search(r';.*KW', s)` without DOTALL: a `;` followed, with no newline
in between, by the keyword. -/
def semiThenAux (kw : Chars) : Chars → Bool
  | [] => false
  | c :: rest =>
      (c = ';' && containsSub kw (rest.takeWhile (fun d => d ≠ '\n'))) ||
        semiThenAux kw rest

/-- Python `str.count('--')`: non-overlapping occurrences of `--`. -/
def countDashDash : Chars → Nat
  | '-' :: '-' :: rest => countDashDash rest + 1
  | _ :: rest => countDashDash rest
  | [] => 0

/-- Collapse whitespace runs to single spaces, `re.sub(r'\s+', ' ', s)`.
The Bool argument records whether the previous character was whitespace. -/
def collapseWsAux : Bool → Chars → Chars
  | _, [] => []
  | prev, c :: rest =>
      if isWs c then
        if prev then collapseWsAux true rest else ' ' :: collapseWsAux true rest
      else c :: collapseWsAux false rest

def collapseWs (s : Chars) : Chars := collapseWsAux false s

/-- Python `str.split()` (split on whitespace runs, dropping empties);
the accumulator holds the current word reversed. -/
def splitWsAux (acc : Chars) : Chars → List Chars
  | [] => if acc = [] then [] else [acc.reverse]
  | c :: rest =>
      if isWs c then
        if acc = [] then splitWsAux [] rest
        else acc.reverse :: splitWsAux [] rest
      else splitWsAux (c :: acc) rest

def splitWs (s : Chars) : List Chars := splitWsAux [] s

/-- Python `'\n'.split` style: split on every newline, keeping empties. -/
def splitNl : Chars → List Chars
  | [] => [[]]
  | c :: rest =>
      if c = '\n' then [] :: splitNl rest
      else
        match splitNl rest with
        | [] => [[c]]
        | l :: ls => (c :: l) :: ls

/-- Python `'\n'.join(lines)`. -/
def joinNl : List Chars → Chars
  | [] => []
  | [l] => l
  | l :: ls => l ++ '\n' :: joinNl ls

/-! ## Security gate (`app/security.py`, `QuerySecurityValidator`) -/

/-- The eleven whole-word blocked keywords of `BLOCKED_KEYWORDS`. -/
def wordKeywords : List Chars :=
  [lc "DROP", lc "DELETE", lc "TRUNCATE", lc "UPDATE", lc "INSERT",
   lc "ALTER", lc "CREATE", lc "GRANT", lc "REVOKE", lc "EXEC", lc "EXECUTE"]

/-- The three `;.*KW` patterns of `BLOCKED_KEYWORDS`. -/
def semiKeywords : List Chars := [lc "DROP", lc "DELETE", lc "UPDATE"]

/-- A blocked pattern: either a whole-word keyword or a `;.*KW` pattern. -/
inductive BlockPat where
  | word (kw : Chars)
  | semi (kw : Chars)
deriving DecidableEq

/-- BLOCKED_KEYWORDS, in source order. -/
def blockedPatterns : List BlockPat :=
  wordKeywords.map BlockPat.word ++ semiKeywords.map BlockPat.semi

def patMatches (up : Chars) : BlockPat → Bool
  | BlockPat.word kw => containsWholeWord kw up
  | BlockPat.semi kw => semiThenAux kw up

def patRepr : BlockPat → String
  | BlockPat.word kw => "\\b" ++ String.mk kw ++ "\\b"
  | BlockPat.semi kw => ";.*" ++ String.mk kw

/-- Regex `^\s*SELECT\b` via `re.match` on the uppercased query. -/
def startsSelect (up : Chars) : Bool := wordAt (lc "SELECT") (up.dropWhile isWs)

/-- `QuerySecurityValidator.validate_query`: returns `(is_valid, error)`. -/
def validate_query (sql : Chars) : Bool × Option String :=
  if stripL sql = [] then (false, some "Empty query")
  else
    let up := upperL sql
    match blockedPatterns.find? (patMatches up) with
    | some p => (false, some ("Blocked keyword detected: " ++ patRepr p))
    | none =>
        if 1 < sql.count ';' then (false, some "Multiple statements not allowed")
        else if !startsSelect up then (false, some "Only SELECT queries are allowed")
        else if (containsSub (lc "--") sql || containsSub (lc "/*") sql ||
                 containsSub (lc "*/") sql) && 2 < countDashDash sql then
          (false, some "Suspicious comment patterns detected")
        else (true, none)

/-- `QuerySecurityValidator.sanitize_query`. -/
def sanitize_query (sql : Chars) : Chars :=
  collapseWs (stripL (rstripSemi sql))

/-- A result row: a column-to-value mapping.  Values are modelled by `Val`
below; `none` stands for Python `None` (SQL NULL). -/
inductive Val where
  | num (q : ℚ)
  | str (s : Chars)
deriving DecidableEq

abbrev Row := List (Chars × Option Val)

/-- `row.get(key)`: `none` both when the key is absent and when it maps to
Python `None` (the code cannot distinguish the two either). -/
def rowGet (r : Row) (k : Chars) : Option Val := (List.lookup k r).join

/-- `ExecutionOutcome` of `execute_safe_query`: `(success, results, error)`. -/
structure ExecOut where
  success : Bool
  rows : Option (List Row)
  errorMessage : Option String
deriving DecidableEq

/-- `QuerySecurityValidator.execute_safe_query`, with the store modelled as
an oracle from the sanitized SQL text to rows or an error.  The second
component records the statements actually sent to the store (the
`SET`/`RESET statement_timeout` bookkeeping is a timing concern and is
elided).  An invalid query is never sent. -/
def execute_safe_query (store : Chars → Except String (List Row)) (sql : Chars) :
    ExecOut × List Chars :=
  match validate_query sql with
  | (false, msg) =>
      (⟨false, none, some ("Security validation failed: " ++ msg.getD "")⟩, [])
  | (true, _) =>
      let q := sanitize_query sql
      match store q with
      | Except.ok rows => (⟨true, some rows, none⟩, [q])
      | Except.error e => (⟨false, none, some e⟩, [q])

/-! ## Result validator (`app/agents/validator.py`, `ValidatorAgent`) -/

/-- Value of an all-digit character list. -/
def digitsVal (ds : Chars) : Nat :=
  ds.foldl (fun a c => a * 10 + (c.toNat - 48)) 0

/-- Unsigned decimal: `digits`, `digits.`, `digits.digits` or `.digits`. -/
def parseUnsigned (s : Chars) : Option ℚ :=
  let intPart := s.takeWhile Char.isDigit
  let rest := s.dropWhile Char.isDigit
  match rest with
  | [] => if intPart = [] then none else some (digitsVal intPart : ℚ)
  | '.' :: frac =>
      if frac.all Char.isDigit && !(intPart = [] && frac = []) then
        some ((digitsVal intPart : ℚ) + (digitsVal frac : ℚ) / (10 : ℚ) ^ frac.length)
      else none
  | _ => none

/-- Model of Python `float(s)` on the plain-decimal fragment (optional sign,
optional fractional part; exponents/inf/nan are outside the model). -/
def parseFloat (s : Chars) : Option ℚ :=
  match stripL s with
  | '-' :: u => (parseUnsigned u).map Neg.neg
  | '+' :: u => parseUnsigned u
  | u => parseUnsigned u

/-- `float(val)` for a row value. -/
def toFloatV : Val → Option ℚ
  | Val.num q => some q
  | Val.str s => parseFloat s

/-- `str(val1) == str(val2)`.  Python `str` is injective on floats and a
float's repr always reparses to it, so a mixed number/unparseable-string
pair can never be string-equal; this branch is only reached when one side
failed numeric parsing. -/
def strEqV : Val → Val → Bool
  | Val.str a, Val.str b => a = b
  | Val.num a, Val.num b => a = b
  | _, _ => false

/-- Loop body of `_compare_rows`: the `try: float ... except: str ==` logic.
Both parse as numbers: compare with absolute tolerance 0.01 (no string
fallback); otherwise `float()` raised and the strings are compared. -/
def valsMatch (v1 v2 : Val) : Bool :=
  match toFloatV v1, toFloatV v2 with
  | some a, some b => decide (|a - b| < 1 / 100)
  | _, _ => strEqV v1 v2

/-- Per-key matching test of `_compare_rows`: both values present
(`is not None`) and `valsMatch`. -/
def rowKeyMatch (r1 r2 : Row) (k : Chars) : Bool :=
  match rowGet r1 k, rowGet r2 k with
  | some v1, some v2 => valsMatch v1 v2
  | _, _ => false

/-- `ValidatorAgent._compare_rows`. -/
def compare_rows (r1 r2 : Row) : ℚ :=
  let allKeys := ((r1.map Prod.fst) ++ (r2.map Prod.fst)).dedup
  if allKeys = [] then 1
  else (allKeys.countP (rowKeyMatch r1 r2) : ℚ) / (allKeys.length : ℚ)

/-- `ValidatorAgent._compare_results`: `(similarity_score, notes)`.  The
numeric `:.2f` formatting inside notes is elided; note counts and static
prefixes are preserved. -/
def compare_results (rs1 rs2 : List Row) : ℚ × List String :=
  if rs1 = [] && rs2 = [] then (1, ["Both queries returned empty results"])
  else if rs1 = [] || rs2 = [] then ((3 : ℚ) / 10, ["One query returned empty results"])
  else
    let rowScore : ℚ := if rs1.length ≠ rs2.length then (1 : ℚ) / 2 else 1
    let note1 : String :=
      if rs1.length ≠ rs2.length then
        "Row count mismatch: " ++ toString rs1.length ++ " vs " ++ toString rs2.length
      else "Row counts match: " ++ toString rs1.length
    let frs := compare_rows (rs1.headD []) (rs2.headD [])
    (rowScore * ((4 : ℚ) / 10) + frs * ((6 : ℚ) / 10),
     [note1, "First row similarity: "])

/-- Normalization in `_calculate_sql_similarity`: collapse whitespace by
split/join, uppercase, strip trailing semicolons. -/
def normalizeSql (s : Chars) : Chars :=
  rstripSemi (upperL (List.intercalate (lc " ") (splitWs s)))

/-- `ValidatorAgent._calculate_sql_similarity`: Jaccard index of the word
sets of the normalized queries. -/
def sql_similarity (s1 s2 : Chars) : ℚ :=
  let w1 := (splitWs (normalizeSql s1)).dedup
  let w2 := (splitWs (normalizeSql s2)).dedup
  if w1 = [] && w2 = [] then 1
  else
    let inter := w1.filter (fun w => w2.contains w)
    let uni := (w1 ++ w2).dedup
    if uni = [] then 0
    else (inter.length : ℚ) / (uni.length : ℚ)

/-- A golden (reference) query row. -/
structure GoldenQuery where
  question : Chars
  sql_query : Chars
  is_active : Bool
deriving DecidableEq

/-- Word-set overlap of `_find_matching_golden_query`. -/
def matchTerms (u g : Chars) : Nat :=
  let ut := (splitWs (lowerL u)).dedup
  let gt := (splitWs (lowerL g)).dedup
  (ut.filter (fun w => gt.contains w)).length

/-- `ValidatorAgent._find_matching_golden_query`: first active golden query
sharing at least 3 words with the question, in storage order. -/
def find_matching_golden (gs : List GoldenQuery) (uq : Chars) : Option GoldenQuery :=
  (gs.filter (fun g => g.is_active)).find? (fun g => 3 ≤ matchTerms uq g.question)

/-- Python `round(x, 2)` idealized over the rationals. -/
def round2 (q : ℚ) : ℚ := ((round (q * 100) : ℤ) : ℚ) / 100

/-- `ValidationResult` shape returned by `ValidatorAgent.validate_query`. -/
structure VOut where
  trust_score : ℚ
  matched_golden : Option Chars
  validation_notes : List String

/-- `ValidatorAgent.validate_query`.  The golden-query fetch is modelled as
an `Except` (the surrounding `try` converts any store failure into the
0.5 `Validation error` outcome); the store oracle executes SQL. -/
def validator_validate (fetch : Except String (List GoldenQuery))
    (store : Chars → Except String (List Row)) (uq gsql : Chars)
    (results : List Row) : VOut :=
  match fetch with
  | Except.error e => ⟨(1 : ℚ) / 2, none, ["Validation error: " ++ e]⟩
  | Except.ok gs =>
      match find_matching_golden gs uq with
      | none => ⟨(6 : ℚ) / 10, none, ["No matching golden query found for comparison"]⟩
      | some g =>
          let out := (execute_safe_query store g.sql_query).1
          if out.success then
            let grows := (out.rows).getD []
            let ts := (compare_results results grows).1
            let notes := (compare_results results grows).2
            let ss := sql_similarity gsql g.sql_query
            let ft := ts * ((7 : ℚ) / 10) + ss * ((3 : ℚ) / 10)
            ⟨round2 ft, some g.question,
             notes ++ ["Golden query match: " ++ String.mk g.question,
                       "SQL similarity: "]⟩
          else
            ⟨(1 : ℚ) / 2, some g.question,
             ["Could not execute golden query: " ++ (out.errorMessage).getD ""]⟩

/-! ## SQL agent (`app/agents/sql_agent.py`, `SQLAgent`) -/

/-- Case-insensitive match of the 7-character opening marker of pattern
(a), three backticks, `sql` (IGNORECASE) and a newline. -/
def sqlFenceStart (s : Chars) : Bool :=
  match s with
  | a :: b :: c :: d :: e :: f :: g :: _ =>
      a = '`' && b = '`' && c = '`' && d.toLower = 's' && e.toLower = 'q' &&
        f.toLower = 'l' && g = '\n'
  | _ => false

/-- Content before the first occurrence of the closing `\n + three
backticks` marker, if one exists (the non-greedy `(.*?)\n` capture with
DOTALL). -/
def splitAtClose : Chars → Option Chars
  | [] => none
  | c :: rest =>
      match c :: rest with
      | '\n' :: '`' :: '`' :: '`' :: _ => some []
      | _ => (splitAtClose rest).map (fun l => c :: l)

/-- Pattern (a) of `_extract_sql`: `re.search` of a ` ```sql `-fenced block;
leftmost opening marker that has a closing marker wins. -/
def extractFencedSql : Chars → Option Chars
  | [] => none
  | c :: rest =>
      if sqlFenceStart (c :: rest) then
        match splitAtClose ((c :: rest).drop 7) with
        | some content => some (stripL content)
        | none => extractFencedSql rest
      else extractFencedSql rest

/-- 4-character opening marker of pattern (b): three backticks and newline,
followed by case-insensitive `SELECT`. -/
def bareFenceStart (s : Chars) : Bool :=
  match s with
  | a :: b :: c :: d :: rest =>
      a = '`' && b = '`' && c = '`' && d = '\n' &&
        lowerL (rest.take 6) = lc "select"
  | _ => false

/-- Pattern (b) of `_extract_sql`: a bare fenced block starting with
SELECT; the capture includes the SELECT keyword as written. -/
def extractBareFence : Chars → Option Chars
  | [] => none
  | c :: rest =>
      if bareFenceStart (c :: rest) then
        let afterMarker := (c :: rest).drop 4
        match splitAtClose (afterMarker.drop 6) with
        | some content => some (stripL (afterMarker.take 6 ++ content))
        | none => extractBareFence rest
      else extractBareFence rest

/-- Python `line.strip().endswith(';')`. -/
def lineEndsSemi (l : Chars) : Bool :=
  match (stripL l).getLast? with
  | some ';' => true
  | _ => false

/-- Heuristic scan of `_extract_sql`: starting at the first line containing
SELECT, collect lines until one ends (after strip) with `;`. -/
def scanSelectLines : List Chars → List Chars
  | [] => []
  | l :: ls =>
      if containsSub (lc "SELECT") (upperL l) then
        if lineEndsSemi l then [l] else l :: scanSelectLines.go ls
      else scanSelectLines ls
where
  go : List Chars → List Chars
    | [] => []
    | l :: ls => if lineEndsSemi l then [l] else l :: go ls

/-- `SQLAgent._extract_sql`. -/
def extract_sql (response : Chars) : Option Chars :=
  match extractFencedSql response with
  | some sql => some sql
  | none =>
      match extractBareFence response with
      | some sql => some sql
      | none =>
          if containsSub (lc "SELECT") (upperL response) then
            match scanSelectLines (splitNl response) with
            | [] => none
            | ls => some (stripL (joinNl ls))
          else none

/-- Terminator of the explanation capture: a blank line, a case-insensitive
`Confidence:` marker, or the end of the text. -/
def explTermAt (s : Chars) : Bool :=
  (s.take 2 = lc "\n\n") || (lowerL (s.take 11) = lc "confidence:")

/-- Minimal non-empty capture of `(.+?)` up to the terminator. -/
def captureUntilTerm : Chars → Chars
  | [] => []
  | c :: rest => c :: captureUntilTerm.go rest
where
  go : Chars → Chars
    | [] => []
    | d :: ds => if explTermAt (d :: ds) then [] else d :: go ds

/-- Text after the first case-insensitive `Explanation:` marker, if any. -/
def afterExplMarker : Chars → Option Chars
  | [] => none
  | c :: rest =>
      if lowerL ((c :: rest).take 12) = lc "explanation:" then
        some ((c :: rest).drop 12)
      else afterExplMarker rest

/-- `SQLAgent._extract_explanation`: regex
`Explanation:\s*(.+?)(?:\n\n|Confidence:|$)` with DOTALL/IGNORECASE, then
`strip`; default sentence when no match. -/
def extract_explanation (response : Chars) : Chars :=
  match afterExplMarker response with
  | none => lc "No explanation provided"
  | some rest =>
      if rest = [] then lc "No explanation provided"
      else
        let tail := rest.dropWhile isWs
        if tail = [] then []
        else stripL (captureUntilTerm tail)

/-- `SQLAgent._calculate_confidence`.  Python checks the exact-case marker
or the lowercased text; the first disjunct is subsumed by the second but
both are kept as written. -/
def calculate_confidence (response : Chars) : ℚ :=
  if containsSub (lc "Confidence: High") response ||
      containsSub (lc "confidence: high") (lowerL response) then (9 : ℚ) / 10
  else if containsSub (lc "Confidence: Medium") response ||
      containsSub (lc "confidence: medium") (lowerL response) then (7 : ℚ) / 10
  else if containsSub (lc "Confidence: Low") response ||
      containsSub (lc "confidence: low") (lowerL response) then (4 : ℚ) / 10
  else (7 : ℚ) / 10

/-- Gateway result consumed by the agents (`text`, `provider`, `model`,
`tokens`); durations are a timing concern and are elided. -/
structure AIRes where
  text : Chars
  provider : Chars
  model : Chars
  tokens : Nat
deriving DecidableEq

/-- `SqlAgentResponse` shape returned by `generate_and_execute`. -/
structure SqlResp where
  sql : Option Chars
  explanation : Option Chars
  confidence_score : ℚ
  results : Option (List Row)
  error : Option String
  row_count : Option Nat

/-- `SQLAgent.generate_and_execute`.  The gateway call (context building
included) is modelled as an `Except` input: the surrounding `try` turns
any exception into the zero-confidence error response.  The second
component records the statements sent to the store, as in
`execute_safe_query`. -/
def generate_and_execute (ai : Except String AIRes)
    (store : Chars → Except String (List Row)) : SqlResp × List Chars :=
  match ai with
  | Except.error e => (⟨none, none, 0, none, some e, none⟩, [])
  | Except.ok r =>
      match extract_sql r.text with
      | none =>
          (⟨none, some (lc "Could not generate valid SQL"), 0, none,
            some "SQL generation failed", none⟩, [])
      | some q =>
          let expl := extract_explanation r.text
          let conf := calculate_confidence r.text
          match validate_query q with
          | (false, msg) =>
              (⟨some q, some expl, 0, none,
                some ("Security validation failed: " ++ msg.getD ""), none⟩, [])
          | (true, _) =>
              match execute_safe_query store q with
              | (⟨true, rows, _⟩, ex) =>
                  (⟨some q, some expl, conf, rows, none,
                    some (rows.getD []).length⟩, ex)
              | (⟨false, _, err⟩, ex) =>
                  (⟨some q, some expl, conf, none, err, none⟩, ex)

/-! ## Intent router (`app/agents/supervisor.py`, `SupervisorAgent`) -/

/-- `result["text"].strip().upper()`. -/
def intentResp (t : Chars) : Chars := upperL (stripL t)

/-- The data-query label test: `"SQL_QUERY" in response or "SQL" in
response`. -/
def sqlRec (t : Chars) : Bool :=
  containsSub (lc "SQL_QUERY") (intentResp t) || containsSub (lc "SQL") (intentResp t)

/-- The documentation label test: `"DOCUMENTATION" in response or "DOC" in
response`. -/
def docRec (t : Chars) : Bool :=
  containsSub (lc "DOCUMENTATION") (intentResp t) || containsSub (lc "DOC") (intentResp t)

/-- `SupervisorAgent.classify_intent`; the gateway call is an `Except`
input, any exception defaults to `sql_query`. -/
def classify_intent : Except String Chars → String
  | Except.error _ => "sql_query"
  | Except.ok t =>
      if sqlRec t then "sql_query"
      else if docRec t then "documentation"
      else "sql_query"

/-! ## AI gateway (`app/ai_gateway.py`, `AIGateway`)

Network providers (openai, gemini, groq) are oracles indexed by the number
of calls made to that provider so far.  Inside `generate`, a provider is
called at most once per pass of the tenacity-driven retry and pass `j` is
reached only after passes `0 .. j-1` called every chain provider exactly
once, so the per-provider call count always equals the pass index; the
model indexes oracles by the pass index.  Timing (backoff sleeps,
durations) and the usage counters are not modelled. -/

/-- Normalized per-attempt provider result. -/
structure GenRes where
  text : Chars
  provider : Chars
  model : Chars
  tokens : Nat
  fallbackUsed : Bool
deriving DecidableEq

/-- Behaviour of the three network-backed providers. -/
structure NetBehavior where
  openai : Nat → Except String AIRes
  gemini : Nat → Except String AIRes
  groq : Nat → Except String AIRes

/-- `AIGateway._generate_stub_response`. -/
def generateStubResponse (prompt : Chars) : Chars :=
  if containsSub (lc "sql") (lowerL prompt) ||
      containsSub (lc "query") (lowerL prompt) then
    lc "```sql\nSELECT COUNT(*) as total_count\nFROM trips\nWHERE status = 'completed';\n```\n\nThis query counts all completed trips."
  else
    lc "I am a local model stub. In production, I would generate a real response based on a local LLM."

/-- `AIGateway._generate_local`: the stub backend; it builds a template
response and never fails. -/
def generateLocal (prompt : Chars) : Except String GenRes :=
  let t := generateStubResponse prompt
  Except.ok ⟨t, lc "local", lc "local-stub", (splitWs t).length, false⟩

/-- Fixed provider priority of `_get_fallback_order`. -/
def allProviders : List Chars := [lc "groq", lc "openai", lc "gemini", lc "local"]

/-- `AIGateway._get_fallback_order`: the fixed priority list minus the
primary. -/
def fallbackOrder (primary : Chars) : List Chars :=
  allProviders.filter (fun p => p != primary)

/-- `AIGateway._generate_with_provider`: string dispatch in source order;
the leaf sets the provider name and `fallback_used = False`; an unknown
provider raises. -/
def providerDispatch (net : NetBehavior) (prompt : Chars) (p : Chars) (k : Nat) :
    Except String GenRes :=
  if p = lc "openai" then
    (net.openai k).map (fun r => ⟨r.text, lc "openai", r.model, r.tokens, false⟩)
  else if p = lc "gemini" then
    (net.gemini k).map (fun r => ⟨r.text, lc "gemini", r.model, r.tokens, false⟩)
  else if p = lc "groq" then
    (net.groq k).map (fun r => ⟨r.text, lc "groq", r.model, r.tokens, false⟩)
  else if p = lc "local" then generateLocal prompt
  else Except.error "Unknown provider"

/-- The fallback loop of `generate`: try each remaining provider once, mark
success with `fallback_used = True`; when all fail, raise referencing the
primary's error. -/
def fallbackRun (call : Chars → Nat → Except String GenRes) (j : Nat) (e : String) :
    List Chars → Except String GenRes
  | [] => Except.error ("All AI providers failed. Last error: " ++ e)
  | p :: rest =>
      match call p j with
      | Except.ok r => Except.ok { r with fallbackUsed := true }
      | Except.error _ => fallbackRun call j e rest

/-- One pass of `generate`'s body: primary first, then the fallback chain. -/
def generateOnce (call : Chars → Nat → Except String GenRes) (primary : Chars)
    (j : Nat) : Except String GenRes :=
  match call primary j with
  | Except.ok r => Except.ok r
  | Except.error e => fallbackRun call j e (fallbackOrder primary)

/-- `AIGateway.generate` with its `@retry(stop=stop_after_attempt(3), ...)`
decorator: the whole body (primary plus fallback chain) is attempted up to
three times; the backoff sleeps between attempts are untimed here. -/
def gatewayGenerate (call : Chars → Nat → Except String GenRes) (primary : Chars) :
    Except String GenRes :=
  match generateOnce call primary 0 with
  | Except.ok r => Except.ok r
  | Except.error _ =>
      match generateOnce call primary 1 with
      | Except.ok r => Except.ok r
      | Except.error _ => generateOnce call primary 2

/-- `model = model or self.default_model`: Python's `or` also replaces an
empty requested model by the default. -/
def primaryOf (modelOpt : Option Chars) (dflt : Chars) : Chars :=
  match modelOpt with
  | none => dflt
  | some s => if s = [] then dflt else s

/-- `generate` as called by the agents: requested model (optional) plus the
configured default, dispatching to the concrete provider table. -/
def gatewayGenerateOpt (net : NetBehavior) (prompt : Chars)
    (modelOpt : Option Chars) (dflt : Chars) : Except String GenRes :=
  gatewayGenerate (providerDispatch net prompt) (primaryOf modelOpt dflt)

/-! ## Definitions written from the spec/claim text, for refinement
comparisons -/

/-- Claim C4's description of the per-key matching rule: both values
present and either both parse as numbers within absolute tolerance 0.01,
or numeric parsing fails and the string representations are equal. -/
def keyMatchesSpec (r1 r2 : Row) (k : Chars) : Bool :=
  match rowGet r1 k, rowGet r2 k with
  | some v1, some v2 =>
      (match toFloatV v1, toFloatV v2 with
       | some a, some b => decide (|a - b| < 1 / 100)
       | _, _ => false) ||
        (((toFloatV v1).isNone || (toFloatV v2).isNone) && strEqV v1 v2)
  | _, _ => false

/-- Claim C7's description of the confidence mapping: case-insensitive
substring match on the three markers, with default 0.7. -/
def confidenceLookupSpec (response : Chars) : ℚ :=
  if containsSub (lc "confidence: high") (lowerL response) then (9 : ℚ) / 10
  else if containsSub (lc "confidence: medium") (lowerL response) then (7 : ℚ) / 10
  else if containsSub (lc "confidence: low") (lowerL response) then (4 : ℚ) / 10
  else (7 : ℚ) / 10

/-- Backend behaviour exhibiting the retry/fallback distinction: groq
fails on its first call and succeeds on its second; openai always
succeeds; everything else always fails. -/
def cexCall : Chars → Nat → Except String GenRes := fun p k =>
  if p = lc "groq" then
    if k = 0 then Except.error "transient"
    else Except.ok ⟨lc "from groq", lc "groq", lc "m", 1, false⟩
  else if p = lc "openai" then Except.ok ⟨lc "from openai", lc "openai", lc "m", 1, false⟩
  else Except.error "down"

/-- Whether an `Except` computation succeeded. -/
def exOk {ε α : Type} : Except ε α → Bool
  | Except.ok _ => true
  | Except.error _ => false

/-! ## Supporting lemmas -/

theorem containsSub_lower (pat : Chars) :
    ∀ s : Chars, containsSub pat s = true →
      containsSub (lowerL pat) (lowerL s) = true := by
  intro s
  induction s with
  | nil =>
      intro h
      simp only [containsSub, List.isEmpty_iff] at h
      simp [containsSub, lowerL, h]
  | cons c rest ih =>
      intro h
      simp only [containsSub, Bool.or_eq_true, decide_eq_true_eq] at h
      rcases h with h | h
      · have hm : (lowerL (c :: rest)).take (lowerL pat).length = lowerL pat := by
          simpa [lowerL, List.map_take] using congrArg (List.map Char.toLower) h
        rw [lowerL, List.length_map] at hm
        simp only [lowerL, List.map_cons] at hm ⊢
        simp [containsSub, hm]
      · have := ih h
        simp only [lowerL, List.map_cons, containsSub] at this ⊢
        simp [this]

theorem orLower (pat s : Chars) :
    (containsSub pat s || containsSub (lowerL pat) (lowerL s)) =
      containsSub (lowerL pat) (lowerL s) := by
  cases h : containsSub pat s
  · simp
  · simp [containsSub_lower pat s h]

theorem rowKeyMatch_eq_spec (r1 r2 : Row) (k : Chars) :
    rowKeyMatch r1 r2 k = keyMatchesSpec r1 r2 k := by
  unfold rowKeyMatch keyMatchesSpec
  cases rowGet r1 k with
  | none => rfl
  | some v1 =>
      cases rowGet r2 k with
      | none => rfl
      | some v2 =>
          unfold valsMatch
          cases h1 : toFloatV v1 <;> cases h2 : toFloatV v2 <;> simp [h1, h2]

theorem compare_rows_nonneg (r1 r2 : Row) : 0 ≤ compare_rows r1 r2 := by
  by_cases h : ((r1.map Prod.fst) ++ (r2.map Prod.fst)).dedup = []
  · simp [compare_rows, h]
  · simp only [compare_rows, h, if_false]
    positivity

theorem compare_rows_le_one (r1 r2 : Row) : compare_rows r1 r2 ≤ 1 := by
  by_cases h : ((r1.map Prod.fst) ++ (r2.map Prod.fst)).dedup = []
  · simp [compare_rows, h]
  · simp only [compare_rows, h, if_false]
    rw [div_le_one]
    · exact_mod_cast List.countP_le_length _
    · have hlen : ((r1.map Prod.fst) ++ (r2.map Prod.fst)).dedup.length ≠ 0 := by
        simpa [List.length_eq_zero] using h
      positivity

theorem cwwAux_mem (kw : Chars) :
    ∀ (s : Chars) (prev : Option Char), cwwAux kw prev s = true →
      ∀ c ∈ kw, c ∈ s := by
  intro s
  induction s with
  | nil => intro prev h; simp [cwwAux] at h
  | cons a rest ih =>
      intro prev h c hc
      simp only [cwwAux, Bool.or_eq_true, Bool.and_eq_true] at h
      rcases h with ⟨-, hw⟩ | h
      · simp only [wordAt, Bool.and_eq_true, decide_eq_true_eq] at hw
        have hmem : c ∈ (a :: rest).take kw.length := by rw [hw.1]; exact hc
        exact List.take_subset _ _ hmem
      · exact List.mem_cons_of_mem a (ih (some a) h c hc)

theorem stripL_nil_all_ws {s : Chars} (h : stripL s = []) :
    ∀ c ∈ s, isWs c = true := by
  intro c hc
  have h1 : (s.dropWhile isWs).reverse.dropWhile isWs = [] := by
    simpa [stripL] using h
  have h2 : ∀ x ∈ (s.dropWhile isWs).reverse, isWs x = true :=
    List.dropWhile_eq_nil_iff.mp h1
  have h3 : ∀ x ∈ s.dropWhile isWs, isWs x = true := by
    intro x hx
    exact h2 x (List.mem_reverse.mpr hx)
  have hsplit : s.takeWhile isWs ++ s.dropWhile isWs = s :=
    List.takeWhile_append_dropWhile isWs s
  rw [← hsplit] at hc
  rcases List.mem_append.mp hc with hc | hc
  · exact List.mem_takeWhile_imp hc
  · exact h3 c hc

theorem toUpper_ws {c : Char} (h : isWs c = true) : isWs c.toUpper = true := by
  have h' : ((c = ' ' ∨ c = '\t') ∨ c = '\x0d') ∨ c = '\n' := by
    simpa [isWs, Char.isWhitespace] using h
  rcases h' with ((h' | h') | h') | h' <;> subst h' <;> decide

theorem exOk_exists {ε α : Type} {x : Except ε α} (h : exOk x = true) :
    ∃ r, x = Except.ok r := by
  cases x with
  | ok r => exact ⟨r, rfl⟩
  | error e => simp [exOk] at h

theorem fallbackRun_error (call : Chars → Nat → Except String GenRes) (j : Nat)
    (e : String) :
    ∀ (l : List Chars) (e2 : String),
      fallbackRun call j e l = Except.error e2 →
      ∀ p ∈ l, ∃ e3, call p j = Except.error e3 := by
  intro l
  induction l with
  | nil => intro e2 _ p hp; exact absurd hp (List.not_mem_nil p)
  | cons a rest ih =>
      intro e2 h p hp
      rw [fallbackRun] at h
      cases hc : call a j with
      | ok r => rw [hc] at h; exact absurd h (by simp)
      | error e3 =>
          rw [hc] at h
          rcases List.mem_cons.mp hp with rfl | hp
          · exact ⟨e3, hc⟩
          · exact ih e2 h p hp

theorem fallbackRun_isOk (call : Chars → Nat → Except String GenRes) (j : Nat)
    (e : String) :
    ∀ (l : List Chars) (p : Chars), p ∈ l →
      exOk (call p j) = true → exOk (fallbackRun call j e l) = true := by
  intro l
  induction l with
  | nil => intro p hp _; exact absurd hp (List.not_mem_nil p)
  | cons a rest ih =>
      intro p hp hok
      rw [fallbackRun]
      cases hc : call a j with
      | ok r => rfl
      | error e3 =>
          rcases List.mem_cons.mp hp with rfl | hp
          · rw [hc] at hok; simp [exOk] at hok
          · exact ih p hp hok

theorem generateOnce_error (call : Chars → Nat → Except String GenRes)
    (primary : Chars) (j : Nat) (e2 : String)
    (h : generateOnce call primary j = Except.error e2) :
    ∀ p ∈ primary :: fallbackOrder primary, ∃ e3, call p j = Except.error e3 := by
  intro p hp
  rw [generateOnce] at h
  cases hc : call primary j with
  | ok r => rw [hc] at h; exact absurd h (by simp)
  | error e0 =>
      rw [hc] at h
      rcases List.mem_cons.mp hp with rfl | hp
      · exact ⟨e0, hc⟩
      · exact fallbackRun_error call j e0 _ e2 h p hp

theorem compare_results_nonneg (rs1 rs2 : List Row) :
    0 ≤ (compare_results rs1 rs2).1 := by
  unfold compare_results
  split_ifs with h1 h2 h3
  · norm_num
  · norm_num
  · have := compare_rows_nonneg (rs1.headD []) (rs2.headD [])
    simp only
    positivity
  · have := compare_rows_nonneg (rs1.headD []) (rs2.headD [])
    simp only
    positivity

theorem compare_results_le_one (rs1 rs2 : List Row) :
    (compare_results rs1 rs2).1 ≤ 1 := by
  unfold compare_results
  split_ifs with h1 h2 h3
  · norm_num
  · norm_num
  · have := compare_rows_le_one (rs1.headD []) (rs2.headD [])
    simp only
    linarith
  · have := compare_rows_le_one (rs1.headD []) (rs2.headD [])
    simp only
    linarith

theorem sql_similarity_nonneg (s1 s2 : Chars) : 0 ≤ sql_similarity s1 s2 := by
  unfold sql_similarity
  dsimp only
  split_ifs <;> positivity

theorem sql_similarity_le_one (s1 s2 : Chars) : sql_similarity s1 s2 ≤ 1 := by
  unfold sql_similarity
  dsimp only
  split_ifs with h1 h2
  · norm_num
  · norm_num
  · set w1 := (splitWs (normalizeSql s1)).dedup with hw1
    set w2 := (splitWs (normalizeSql s2)).dedup with hw2
    have hnodup : (w1.filter (fun w => w2.contains w)).Nodup :=
      (List.nodup_dedup _).filter _
    have hsub : (w1.filter (fun w => w2.contains w)) ⊆ (w1 ++ w2).dedup := by
      intro x hx
      rw [List.mem_dedup]
      exact List.mem_append_left _ (List.mem_of_mem_filter hx)
    have hlen : (w1.filter (fun w => w2.contains w)).length ≤ (w1 ++ w2).dedup.length :=
      (hnodup.subperm hsub).length_le
    have hpos : (0 : ℚ) < ((w1 ++ w2).dedup.length : ℚ) := by
      have : (w1 ++ w2).dedup.length ≠ 0 := by
        simpa [List.length_eq_zero] using h2
      have : 0 < (w1 ++ w2).dedup.length := Nat.pos_of_ne_zero this
      exact_mod_cast this
    rw [div_le_one hpos]
    exact_mod_cast hlen

theorem round2_int_bounds {q : ℚ} (h0 : 0 ≤ q) (h1 : q ≤ 1) :
    ∃ z : ℤ, round2 q = (z : ℚ) / 100 ∧ 0 ≤ z ∧ z ≤ 100 := by
  refine ⟨round (q * 100), rfl, ?_, ?_⟩
  · have : round (0 : ℚ) ≤ round (q * 100) := by
      rw [round_eq, round_eq]
      exact Int.floor_le_floor (by linarith)
    simpa using this
  · have : round (q * 100) ≤ round ((100 : ℚ)) := by
      rw [round_eq, round_eq]
      exact Int.floor_le_floor (by linarith)
    have h100 : round ((100 : ℚ)) = 100 := by
      have hrc := round_intCast (α := ℚ) 100
      have hcast : ((100 : ℤ) : ℚ) = (100 : ℚ) := by norm_num
      rw [hcast] at hrc
      exact hrc
    rw [h100] at this
    exact this

theorem validate_query_cases (sql : Chars) :
    validate_query sql = (true, none) ∨ (validate_query sql).1 = false := by
  unfold validate_query
  by_cases h1 : stripL sql = []
  · simp [h1]
  · simp only [if_neg h1]
    cases hfind : List.find? (patMatches (upperL sql)) blockedPatterns with
    | some p => simp
    | none => split_ifs <;> simp

theorem validate_query_of_true {sql : Chars} (h : (validate_query sql).1 = true) :
    validate_query sql = (true, none) := by
  rcases validate_query_cases sql with hv | hv
  · exact hv
  · rw [hv] at h; exact absurd h (by simp)

/-! ## Claim theorems -/

/-- Claim C1: any SQL string containing one of the eleven blocked keywords
as a whole word, in any casing, fails `validate_query` with a non-null
reason, and `execute_safe_query` on it fails without sending anything to
the store. -/
theorem c1_blocked_keyword_rejected :
    ∀ (sql kw : Chars) (store : Chars → Except String (List Row)),
      kw ∈ wordKeywords → containsWholeWord kw (upperL sql) = true →
      (validate_query sql).1 = false ∧ (validate_query sql).2.isSome = true ∧
      (execute_safe_query store sql).1.success = false ∧
      (execute_safe_query store sql).1.errorMessage.isSome = true ∧
      (execute_safe_query store sql).2 = [] := by
  intro sql kw store hkw hc
  have hnonws : ∀ kw ∈ wordKeywords, ∃ c ∈ kw, isWs c = false := by decide
  have hstrip : stripL sql ≠ [] := by
    intro hnil
    obtain ⟨c, hck, hcw⟩ := hnonws kw hkw
    have hmem : c ∈ upperL sql := cwwAux_mem kw (upperL sql) none hc c hck
    obtain ⟨d, hd, rfl⟩ := List.mem_map.mp hmem
    have hup : isWs (d.toUpper) = true := toUpper_ws (stripL_nil_all_ws hnil d hd)
    rw [hup] at hcw
    simp at hcw
  have hfind : (blockedPatterns.find? (patMatches (upperL sql))).isSome := by
    rw [List.find?_isSome]
    refine ⟨BlockPat.word kw, List.mem_append_left _ (List.mem_map_of_mem _ hkw), ?_⟩
    simpa [patMatches] using hc
  obtain ⟨p, hp⟩ := Option.isSome_iff_exists.mp hfind
  have hval : validate_query sql =
      (false, some ("Blocked keyword detected: " ++ patRepr p)) := by
    simp [validate_query, hstrip, hp]
  refine ⟨by rw [hval], by rw [hval]; rfl, ?_, ?_, ?_⟩ <;>
    simp [execute_safe_query, hval]

/-- Claim C1 witness: `Drop TABLE users` contains DROP as a whole word in
mixed casing and is rejected without touching the store. -/
theorem c1_blocked_keyword_rejected_witness :
    (validate_query (lc "Drop TABLE users")).1 = false ∧
    (validate_query (lc "Drop TABLE users")).2.isSome = true ∧
    (execute_safe_query (fun _ => Except.ok []) (lc "Drop TABLE users")).1.success = false ∧
    (execute_safe_query (fun _ => Except.ok []) (lc "Drop TABLE users")).1.errorMessage.isSome = true ∧
    (execute_safe_query (fun _ => Except.ok []) (lc "Drop TABLE users")).2 = [] :=
  c1_blocked_keyword_rejected (lc "Drop TABLE users") (lc "DROP") _
    (by decide) (by decide)

/-- Claim C2: the trust score is always a two-decimal value in [0,1]; it
equals `round(rowSim * 0.7 + sqlSim * 0.3, 2)` when a golden query matches
and executes, exactly 0.6 with a single note when none matches (including
an empty golden set), and 0.5 when the golden execution fails or the
fetch/comparison step itself fails. -/
theorem c2_trust_score_cases :
    (∀ (fetch : Except String (List GoldenQuery))
        (store : Chars → Except String (List Row)) (uq gsql : Chars)
        (results : List Row), ∃ z : ℤ,
      (validator_validate fetch store uq gsql results).trust_score = (z : ℚ) / 100 ∧
        0 ≤ z ∧ z ≤ 100) ∧
    (∀ (gs : List GoldenQuery) (store : Chars → Except String (List Row))
        (uq gsql : Chars) (results : List Row),
      find_matching_golden gs uq = none →
      validator_validate (Except.ok gs) store uq gsql results =
        ⟨6 / 10, none, ["No matching golden query found for comparison"]⟩) ∧
    (∀ (e : String) (store : Chars → Except String (List Row)) (uq gsql : Chars)
        (results : List Row),
      (validator_validate (Except.error e) store uq gsql results).trust_score = 1 / 2) ∧
    (∀ (gs : List GoldenQuery) (store : Chars → Except String (List Row))
        (uq gsql : Chars) (results : List Row) (g : GoldenQuery),
      find_matching_golden gs uq = some g →
      (execute_safe_query store g.sql_query).1.success = false →
      (validator_validate (Except.ok gs) store uq gsql results).trust_score = 1 / 2) ∧
    (∀ (gs : List GoldenQuery) (store : Chars → Except String (List Row))
        (uq gsql : Chars) (results : List Row) (g : GoldenQuery)
        (grows : List Row),
      find_matching_golden gs uq = some g →
      (execute_safe_query store g.sql_query).1 = ⟨true, some grows, none⟩ →
      (validator_validate (Except.ok gs) store uq gsql results).trust_score =
        round2 ((compare_results results grows).1 * (7 / 10) +
          sql_similarity gsql g.sql_query * (3 / 10))) := by
  refine ⟨?_, ?_, ?_, ?_, ?_⟩
  · intro fetch store uq gsql results
    cases fetch with
    | error e =>
        exact ⟨50, by simp [validator_validate]; norm_num, by norm_num, by norm_num⟩
    | ok gs =>
        cases hfind : find_matching_golden gs uq with
        | none =>
            exact ⟨60, by simp [validator_validate, hfind]; norm_num,
              by norm_num, by norm_num⟩
        | some g =>
            by_cases hs : (execute_safe_query store g.sql_query).1.success = true
            · set grows := (execute_safe_query store g.sql_query).1.rows.getD []
              set ft := (compare_results results grows).1 * ((7 : ℚ) / 10) +
                sql_similarity gsql g.sql_query * ((3 : ℚ) / 10) with hft
              have hft0 : 0 ≤ ft := by
                have h1 := compare_results_nonneg results grows
                have h2 := sql_similarity_nonneg gsql g.sql_query
                rw [hft]; positivity
              have hft1 : ft ≤ 1 := by
                have h1 := compare_results_nonneg results grows
                have h2 := compare_results_le_one results grows
                have h3 := sql_similarity_nonneg gsql g.sql_query
                have h4 := sql_similarity_le_one gsql g.sql_query
                rw [hft]; linarith
              obtain ⟨z, hz, hz0, hz1⟩ := round2_int_bounds hft0 hft1
              refine ⟨z, ?_, hz0, hz1⟩
              have htr : (validator_validate (Except.ok gs) store uq gsql
                  results).trust_score = round2 ft := by
                simp [validator_validate, hfind, hs, hft]
              rw [htr, hz]
            · exact ⟨50, by simp [validator_validate, hfind, hs]; norm_num,
                by norm_num, by norm_num⟩
  · intro gs store uq gsql results hfind
    simp [validator_validate, hfind]
  · intro e store uq gsql results
    simp [validator_validate]
  · intro gs store uq gsql results g hfind hfail
    simp [validator_validate, hfind, hfail]
  · intro gs store uq gsql results g grows hfind hexec
    simp [validator_validate, hfind, hexec]

/-- Claim C2 witness: concrete instances of each branch — a failing fetch,
an empty golden set, a matched golden whose SQL is rejected, and a matched
golden executing successfully. -/
theorem c2_trust_score_cases_witness :
    (∃ z : ℤ, (validator_validate (Except.error "down") (fun _ => Except.ok [])
        (lc "q") (lc "SELECT 1") []).trust_score = (z : ℚ) / 100 ∧ 0 ≤ z ∧ z ≤ 100) ∧
    validator_validate (Except.ok []) (fun _ => Except.ok []) (lc "q")
        (lc "SELECT 1") [] =
      ⟨6 / 10, none, ["No matching golden query found for comparison"]⟩ ∧
    (validator_validate (Except.error "down") (fun _ => Except.ok [])
        (lc "q") (lc "SELECT 1") []).trust_score = 1 / 2 ∧
    (validator_validate
        (Except.ok [⟨lc "total trips completed count", lc "DROP", true⟩])
        (fun _ => Except.ok []) (lc "total trips completed count")
        (lc "SELECT 1") []).trust_score = 1 / 2 ∧
    (validator_validate
        (Except.ok [⟨lc "total trips completed count", lc "SELECT 1", true⟩])
        (fun _ => Except.ok []) (lc "total trips completed count")
        (lc "SELECT 1") []).trust_score =
      round2 ((compare_results [] []).1 * (7 / 10) +
        sql_similarity (lc "SELECT 1")
          (GoldenQuery.mk (lc "total trips completed count") (lc "SELECT 1") true).sql_query *
          (3 / 10)) :=
  ⟨c2_trust_score_cases.1 _ _ _ _ _,
   c2_trust_score_cases.2.1 [] _ (lc "q") (lc "SELECT 1") [] (by decide),
   c2_trust_score_cases.2.2.1 "down" _ _ _ _,
   c2_trust_score_cases.2.2.2.1 _ _ _ _ _
     ⟨lc "total trips completed count", lc "DROP", true⟩ (by decide) (by decide),
   c2_trust_score_cases.2.2.2.2 _ _ _ _ []
     ⟨lc "total trips completed count", lc "SELECT 1", true⟩ [] (by decide) (by decide)⟩

/-- Claim C3: `compare_results` returns 1.0 when both row sets are empty,
0.3 when exactly one is empty, and otherwise 0.4 times the row-count score
(1.0 on equal lengths, 0.5 otherwise) plus 0.6 times the `compare_rows`
score of the two first rows. -/
theorem c3_compare_results_formula :
    (compare_results [] []).1 = 1 ∧
    (∀ (r : Row) (rs : List Row),
      (compare_results (r :: rs) []).1 = 3 / 10 ∧
      (compare_results [] (r :: rs)).1 = 3 / 10) ∧
    (∀ (r1 : Row) (rs1 : List Row) (r2 : Row) (rs2 : List Row),
      (compare_results (r1 :: rs1) (r2 :: rs2)).1 =
        (if (r1 :: rs1).length = (r2 :: rs2).length then (1 : ℚ) else 1 / 2) *
            (4 / 10) +
          compare_rows r1 r2 * (6 / 10)) := by
  refine ⟨by simp [compare_results], fun r rs => ⟨by simp [compare_results], by simp [compare_results]⟩, ?_⟩
  intro r1 rs1 r2 rs2
  by_cases h : (r1 :: rs1).length = (r2 :: rs2).length
  · simp [compare_results, h]
  · simp [compare_results, h]

/-- Claim C4: `compare_rows` equals the matching-key count over the number
of distinct keys in the union of the two rows' key sets, with the claim's
matching rule (both present; numeric tolerance 0.01, else exact string
equality), 1.0 on an empty union; and the two concrete tolerance examples
evaluate to matching (1) and non-matching (0). -/
theorem c4_compare_rows_formula :
    (∀ r1 r2 : Row,
      compare_rows r1 r2 =
        if ((r1.map Prod.fst) ++ (r2.map Prod.fst)).dedup = [] then 1
        else
          ((((r1.map Prod.fst) ++ (r2.map Prod.fst)).dedup.countP
              (keyMatchesSpec r1 r2) : ℚ)) /
            ((((r1.map Prod.fst) ++ (r2.map Prod.fst)).dedup.length : ℚ))) ∧
    compare_rows [(lc "x", some (Val.str (lc "1.00")))]
        [(lc "x", some (Val.str (lc "1.001")))] = 1 ∧
    compare_rows [(lc "x", some (Val.str (lc "1.00")))]
        [(lc "x", some (Val.str (lc "1.02")))] = 0 := by
  refine ⟨?_, ?_, ?_⟩
  · intro r1 r2
    have hfun : rowKeyMatch r1 r2 = keyMatchesSpec r1 r2 :=
      funext (rowKeyMatch_eq_spec r1 r2)
    simp [compare_rows, hfun]
  · simp +decide [compare_rows, rowKeyMatch, rowGet, valsMatch, toFloatV, parseFloat,
      parseUnsigned, stripL, isWs, digitsVal, lc, strEqV, List.countP_cons, List.countP_nil]
    norm_num [abs_lt]
  · simp +decide [compare_rows, rowKeyMatch, rowGet, valsMatch, toFloatV, parseFloat,
      parseUnsigned, stripL, isWs, digitsVal, lc, strEqV, List.countP_cons, List.countP_nil]
    norm_num [le_abs]

/-- Claim C7: the confidence mapping is the case-insensitive substring
lookup described in the spec: `Confidence: High` 0.9, `Medium` 0.7,
`Low` 0.4, default 0.7. -/
theorem c7_confidence_mapping :
    ∀ response : Chars, calculate_confidence response = confidenceLookupSpec response := by
  intro response
  have h1 : lc "confidence: high" = lowerL (lc "Confidence: High") := by decide
  have h2 : lc "confidence: medium" = lowerL (lc "Confidence: Medium") := by decide
  have h3 : lc "confidence: low" = lowerL (lc "Confidence: Low") := by decide
  rw [calculate_confidence, confidenceLookupSpec, h1, h2, h3, orLower, orLower, orLower]

/-- Claim C8: intent classification returns `sql_query` on any gateway
exception, on the empty response, and whenever neither label is
recognized; it returns `documentation` exactly when the documentation
label is recognized and the data-query label is not. -/
theorem c8_intent_default :
    (∀ e : String, classify_intent (Except.error e) = "sql_query") ∧
    classify_intent (Except.ok (lc "")) = "sql_query" ∧
    (∀ t : Chars, sqlRec t = false → docRec t = false →
      classify_intent (Except.ok t) = "sql_query") ∧
    (∀ t : Chars, classify_intent (Except.ok t) = "documentation" ↔
      (docRec t = true ∧ sqlRec t = false)) := by
  refine ⟨fun e => rfl, by decide, ?_, ?_⟩
  · intro t h1 h2
    simp [classify_intent, h1, h2]
  · intro t
    cases hs : sqlRec t
    · cases hd : docRec t
      · simp [classify_intent, hs, hd]
      · simp [classify_intent, hs, hd]
    · simp [classify_intent, hs]

/-- Claim C8 witness at concrete inputs: a response recognizing neither
label is classified as `sql_query`. -/
theorem c8_intent_default_witness :
    sqlRec (lc "HELLO") = false ∧ docRec (lc "HELLO") = false ∧
      classify_intent (Except.ok (lc "HELLO")) = "sql_query" :=
  ⟨by decide, by decide,
    c8_intent_default.2.2.1 (lc "HELLO") (by decide) (by decide)⟩

/-- Claim C6: when the extracted SQL fails static validation, the SQL
agent's response has confidence exactly 0 with the validator's reason in
the error field and nothing sent to the store; when validation passes but
execution fails, the extracted confidence is kept, the error is the
execution error and results stay null. -/
theorem c6_validation_vs_execution_failure :
    (∀ (r : AIRes) (store : Chars → Except String (List Row)) (q : Chars)
        (reason : String),
      extract_sql r.text = some q → validate_query q = (false, some reason) →
      (generate_and_execute (Except.ok r) store).1.confidence_score = 0 ∧
      (generate_and_execute (Except.ok r) store).1.error =
        some ("Security validation failed: " ++ reason) ∧
      (generate_and_execute (Except.ok r) store).1.results = none ∧
      (generate_and_execute (Except.ok r) store).2 = []) ∧
    (∀ (r : AIRes) (store : Chars → Except String (List Row)) (q : Chars),
      extract_sql r.text = some q → (validate_query q).1 = true →
      (execute_safe_query store q).1.success = false →
      (generate_and_execute (Except.ok r) store).1.confidence_score =
        calculate_confidence r.text ∧
      (generate_and_execute (Except.ok r) store).1.error =
        (execute_safe_query store q).1.errorMessage ∧
      (generate_and_execute (Except.ok r) store).1.results = none) := by
  constructor
  · intro r store q reason hext hval
    refine ⟨?_, ?_, ?_, ?_⟩ <;> simp [generate_and_execute, hext, hval]
  · intro r store q hext hvalid hfail
    have hvq : validate_query q = (true, none) := validate_query_of_true hvalid
    cases hst : store (sanitize_query q) with
    | ok rows =>
        exfalso
        rw [execute_safe_query, hvq] at hfail
        simp [hst] at hfail
    | error e =>
        have hex : execute_safe_query store q =
            (⟨false, none, some e⟩, [sanitize_query q]) := by
          rw [execute_safe_query, hvq]
          simp [hst]
        refine ⟨?_, ?_, ?_⟩ <;> simp [generate_and_execute, hext, hvq, hex]

/-- Claim C6 witness: a fenced `DROP TABLE x` is rejected with zero
confidence and no statement sent; a fenced `SELECT 1` against a failing
store keeps the extracted confidence and surfaces the store error. -/
theorem c6_validation_vs_execution_failure_witness :
    ((generate_and_execute
        (Except.ok ⟨lc "```sql\nDROP TABLE x\n```\nConfidence: High", lc "groq", lc "m", 1⟩)
        (fun _ => Except.ok [])).1.confidence_score = 0 ∧
      (generate_and_execute
        (Except.ok ⟨lc "```sql\nDROP TABLE x\n```\nConfidence: High", lc "groq", lc "m", 1⟩)
        (fun _ => Except.ok [])).2 = []) ∧
    ((generate_and_execute
        (Except.ok ⟨lc "```sql\nSELECT 1\n```\nConfidence: Low", lc "groq", lc "m", 1⟩)
        (fun _ => Except.error "boom")).1.confidence_score =
        calculate_confidence (lc "```sql\nSELECT 1\n```\nConfidence: Low") ∧
      (generate_and_execute
        (Except.ok ⟨lc "```sql\nSELECT 1\n```\nConfidence: Low", lc "groq", lc "m", 1⟩)
        (fun _ => Except.error "boom")).1.results = none) :=
  ⟨⟨(c6_validation_vs_execution_failure.1 _ _ (lc "DROP TABLE x")
      "Blocked keyword detected: \\bDROP\\b" (by decide) (by decide)).1,
    (c6_validation_vs_execution_failure.1 _ _ (lc "DROP TABLE x")
      "Blocked keyword detected: \\bDROP\\b" (by decide) (by decide)).2.2.2⟩,
   ⟨(c6_validation_vs_execution_failure.2 _ _ (lc "SELECT 1")
      (by decide) (by decide) (by decide)).1,
    (c6_validation_vs_execution_failure.2 _ _ (lc "SELECT 1")
      (by decide) (by decide) (by decide)).2.2⟩⟩

/-- Claim C10: in `compare_rows` a key whose value is absent or null on
either side is counted as non-matching, so a row containing a null field
compared with itself scores strictly below 1, and `compare_results` on
identical non-empty row lists whose first row has a null field also stays
strictly below 1. -/
theorem c10_null_fields_lower_similarity :
    (∀ (r1 r2 : Row) (k : Chars), (rowGet r1 k = none ∨ rowGet r2 k = none) →
      rowKeyMatch r1 r2 k = false) ∧
    (∀ (r : Row) (k : Chars), k ∈ r.map Prod.fst → rowGet r k = none →
      compare_rows r r < 1) ∧
    (∀ (r : Row) (rs : List Row) (k : Chars), k ∈ r.map Prod.fst →
      rowGet r k = none → (compare_results (r :: rs) (r :: rs)).1 < 1) := by
  have hfalse : ∀ (r1 r2 : Row) (k : Chars),
      (rowGet r1 k = none ∨ rowGet r2 k = none) → rowKeyMatch r1 r2 k = false := by
    intro r1 r2 k h
    rcases h with h | h
    · simp [rowKeyMatch, h]
    · rw [rowKeyMatch, h]
      cases rowGet r1 k <;> rfl
  have hrow : ∀ (r : Row) (k : Chars), k ∈ r.map Prod.fst → rowGet r k = none →
      compare_rows r r < 1 := by
    intro r k hk hnull
    have hmem : k ∈ ((r.map Prod.fst) ++ (r.map Prod.fst)).dedup := by
      rw [List.mem_dedup]
      exact List.mem_append_left _ hk
    have hne : ((r.map Prod.fst) ++ (r.map Prod.fst)).dedup ≠ [] :=
      fun h => by simp [h] at hmem
    have hcount : ((r.map Prod.fst) ++ (r.map Prod.fst)).dedup.countP (rowKeyMatch r r)
        < ((r.map Prod.fst) ++ (r.map Prod.fst)).dedup.length := by
      refine Nat.lt_of_le_of_ne (List.countP_le_length _) (fun heq => ?_)
      have := (List.countP_eq_length).mp heq k hmem
      rw [hfalse r r k (Or.inl hnull)] at this
      exact Bool.false_ne_true this
    have hlenpos : (0 : ℚ) < ((r.map Prod.fst) ++ (r.map Prod.fst)).dedup.length := by
      have : 0 < ((r.map Prod.fst) ++ (r.map Prod.fst)).dedup.length :=
        List.length_pos.mpr hne
      exact_mod_cast this
    rw [compare_rows]
    simp only [hne, if_false]
    rw [div_lt_one hlenpos]
    exact_mod_cast hcount
  refine ⟨hfalse, hrow, ?_⟩
  intro r rs k hk hnull
  have h1 : compare_rows r r < 1 := hrow r k hk hnull
  have h0 : 0 ≤ compare_rows r r := compare_rows_nonneg r r
  simp only [compare_results]
  simp
  linarith

/-- Claim C10 witness: a single-key row mapping to null compared against
itself. -/
theorem c10_null_fields_lower_similarity_witness :
    rowKeyMatch [((lc "a"), none)] [((lc "a"), none)] (lc "a") = false ∧
    compare_rows [((lc "a"), none)] [((lc "a"), none)] < 1 ∧
    (compare_results [[((lc "a"), none)]] [[((lc "a"), none)]]).1 < 1 :=
  ⟨c10_null_fields_lower_similarity.1 _ _ _ (Or.inl (by decide)),
   c10_null_fields_lower_similarity.2.1 _ (lc "a") (by decide) (by decide),
   c10_null_fields_lower_similarity.2.2 _ [] (lc "a") (by decide) (by decide)⟩

/-- Claim C5 (amended): `generate` raises only when every backend of the
chain (requested/default primary first, then the fixed priority order
excluding it) has failed — indeed, on each of the three chain passes of
the retry decorator; it stops at the first success; the primary never
reappears in its own fallback order; and the bounded retry wraps the whole
fallback chain rather than each individual backend attempt. -/
theorem c5_fallback_chain_amended :
    (∀ (call : Chars → Nat → Except String GenRes) (primary : Chars) (e : String),
      gatewayGenerate call primary = Except.error e →
      ∀ p ∈ primary :: fallbackOrder primary, ∀ j < 3,
        ∃ e3, call p j = Except.error e3) ∧
    (∀ (call : Chars → Nat → Except String GenRes) (primary : Chars) (r : GenRes),
      call primary 0 = Except.ok r → gatewayGenerate call primary = Except.ok r) ∧
    (∀ primary : Chars, primary ∉ fallbackOrder primary) ∧
    (∀ (call : Chars → Nat → Except String GenRes) (primary : Chars) (r : GenRes),
      exOk (generateOnce call primary 0) = false →
      generateOnce call primary 1 = Except.ok r →
      gatewayGenerate call primary = Except.ok r) := by
  refine ⟨?_, ?_, ?_, ?_⟩
  · intro call primary e h p hp j hj
    rw [gatewayGenerate] at h
    cases h0 : generateOnce call primary 0 with
    | ok r => rw [h0] at h; exact absurd h (by simp)
    | error e0 =>
        rw [h0] at h
        cases h1 : generateOnce call primary 1 with
        | ok r => rw [h1] at h; exact absurd h (by simp)
        | error e1 =>
            rw [h1] at h
            interval_cases j
            · exact generateOnce_error call primary 0 e0 h0 p hp
            · exact generateOnce_error call primary 1 e1 h1 p hp
            · exact generateOnce_error call primary 2 e h p hp
  · intro call primary r h
    rw [gatewayGenerate, generateOnce, h]
  · intro primary h
    have := (List.mem_filter.mp h).2
    simp at this
  · intro call primary r h0 h1
    cases hc : generateOnce call primary 0 with
    | ok r0 => rw [hc] at h0; simp [exOk] at h0
    | error e0 => rw [gatewayGenerate, hc, h1]

/-- Claim C5 counterexample: with a primary (groq) that fails its first
call but would succeed on its second, the code does not retry the primary
before falling back — it immediately returns openai's result flagged as a
fallback, so no per-backend bounded retry absorbs the transient failure. -/
theorem c5_per_backend_retry_counterexample :
    cexCall (lc "groq") 0 = Except.error "transient" ∧
    cexCall (lc "groq") 1 =
      Except.ok ⟨lc "from groq", lc "groq", lc "m", 1, false⟩ ∧
    gatewayGenerate cexCall (lc "groq") =
      Except.ok ⟨lc "from openai", lc "openai", lc "m", 1, true⟩ := by
  refine ⟨rfl, rfl, rfl⟩

/-- Claim C5 witness: the amended theorem applied at concrete behaviours —
an always-failing call exhausts every chain member on all three passes, a
first-call success is returned as is, and a second-pass success after a
failed first pass is returned by the chain-level retry. -/
theorem c5_fallback_chain_amended_witness :
    (∃ e3, (fun (_ : Chars) (_ : Nat) => (Except.error "boom" : Except String GenRes))
        (lc "local") 2 = Except.error e3) ∧
    gatewayGenerate
        (fun (_ : Chars) (_ : Nat) =>
          Except.ok (⟨lc "t", lc "groq", lc "m", 1, false⟩ : GenRes)) (lc "groq") =
      Except.ok ⟨lc "t", lc "groq", lc "m", 1, false⟩ ∧
    lc "groq" ∉ fallbackOrder (lc "groq") ∧
    gatewayGenerate
        (fun (_ : Chars) (k : Nat) =>
          if k = 0 then (Except.error "boom" : Except String GenRes)
          else Except.ok (⟨lc "t", lc "groq", lc "m", 1, false⟩ : GenRes)) (lc "groq") =
      Except.ok ⟨lc "t", lc "groq", lc "m", 1, false⟩ :=
  ⟨c5_fallback_chain_amended.1
      (fun (_ : Chars) (_ : Nat) => (Except.error "boom" : Except String GenRes))
      (lc "groq") "All AI providers failed. Last error: boom"
      (by rfl) (lc "local") (by decide) 2 (by decide),
   c5_fallback_chain_amended.2.1 _ (lc "groq") _ rfl,
   c5_fallback_chain_amended.2.2.1 (lc "groq"),
   c5_fallback_chain_amended.2.2.2 _ (lc "groq") _ rfl rfl⟩

/-- Claim C9 (amended): the local stub backend never fails for any prompt;
for every primary other than `local`, `local` is the last entry of the
fallback order (for primary `local` it is the first backend tried, not a
member of its own fallback list); consequently `generate` never reaches
the all-backends-exhausted branch, for any network behaviour, requested
model and configured default. -/
theorem c9_local_backend_amended :
    (∀ prompt : Chars, exOk (generateLocal prompt) = true) ∧
    (∀ primary : Chars, primary ≠ lc "local" →
      (fallbackOrder primary).getLast? = some (lc "local")) ∧
    (∀ (net : NetBehavior) (prompt : Chars) (modelOpt : Option Chars)
        (dflt : Chars),
      exOk (gatewayGenerateOpt net prompt modelOpt dflt) = true) := by
  refine ⟨fun prompt => rfl, ?_, ?_⟩
  · intro primary h
    have hsplit : allProviders = [lc "groq", lc "openai", lc "gemini"] ++ [lc "local"] := rfl
    have hl : (lc "local" != primary) = true := by
      simp only [bne_iff_ne, ne_eq]
      exact fun hh => h hh.symm
    rw [fallbackOrder, hsplit, List.filter_append]
    have hfl : List.filter (fun p => p != primary) [lc "local"] = [lc "local"] := by
      simp [List.filter, hl]
    rw [hfl, List.getLast?_concat]
  · intro net prompt modelOpt dflt
    set primary := primaryOf modelOpt dflt with hprim
    have hlocal : providerDispatch net prompt (lc "local") 0 =
        generateLocal prompt := by
      rw [providerDispatch]
      rw [if_neg (by decide), if_neg (by decide), if_neg (by decide), if_pos rfl]
    by_cases hp : primary = lc "local"
    · have hcall : providerDispatch net prompt primary 0 = generateLocal prompt := by
        rw [hp]; exact hlocal
      obtain ⟨r, hr⟩ := exOk_exists (x := generateLocal prompt) rfl
      rw [gatewayGenerateOpt, ← hprim, gatewayGenerate, generateOnce, hcall, hr]
      rfl
    · have hmem : lc "local" ∈ fallbackOrder primary := by
        rw [fallbackOrder]
        refine List.mem_filter.mpr ⟨by decide, ?_⟩
        simp only [bne_iff_ne, ne_eq]
        exact fun hh => hp hh.symm
      have hlocok : exOk (providerDispatch net prompt (lc "local") 0) = true := by
        rw [hlocal]; rfl
      rw [gatewayGenerateOpt, ← hprim, gatewayGenerate]
      cases hc : generateOnce (providerDispatch net prompt) primary 0 with
      | ok r => rfl
      | error e =>
          exfalso
          cases hcp : providerDispatch net prompt primary 0 with
          | ok r0 =>
              rw [generateOnce, hcp] at hc
              have hc' : Except.ok r0 = Except.error e := hc
              exact absurd hc' (by simp)
          | error e0 =>
              rw [generateOnce, hcp] at hc
              have hc' : fallbackRun (providerDispatch net prompt) 0 e0
                  (fallbackOrder primary) = Except.error e := hc
              have hok := fallbackRun_isOk (providerDispatch net prompt) 0 e0
                (fallbackOrder primary) (lc "local") hmem hlocok
              rw [hc'] at hok
              simp [exOk] at hok

/-- Claim C9 counterexample: for primary `local` the computed fallback
order does not contain `local` at all, so `local` is not last in every
fallback order. -/
theorem c9_local_fallback_counterexample :
    lc "local" ∉ fallbackOrder (lc "local") ∧
    fallbackOrder (lc "local") = [lc "groq", lc "openai", lc "gemini"] := by
  refine ⟨by decide, by decide⟩

/-- Claim C9 witness: concrete instances — the fallback order for groq
ends with local, and the gateway succeeds even when every network backend
always fails. -/
theorem c9_local_backend_amended_witness :
    exOk (generateLocal (lc "hello")) = true ∧
    (fallbackOrder (lc "groq")).getLast? = some (lc "local") ∧
    exOk (gatewayGenerateOpt
      ⟨fun _ => Except.error "down", fun _ => Except.error "down",
        fun _ => Except.error "down"⟩ (lc "hello") none (lc "groq")) = true :=
  ⟨c9_local_backend_amended.1 (lc "hello"),
   c9_local_backend_amended.2.1 (lc "groq") (by decide),
   c9_local_backend_amended.2.2 _ (lc "hello") none (lc "groq")⟩

end FinchAI
